import Mathlib

/-!
Verification of the pippin_nano_wallet server against its specification.

The Python sources under scrutiny are `server/pippin_server.py` (the RPC
gateway and its fourteen wallet handlers), `network/work_client.py` (the
distributed work-generation race) and `main.py`.  The wallet model
(`db/models/wallet.py`), the block pipeline (`util/wallet.py`), the
validators (`util/validators.py`) and the crypto layer are not part of the
given sources; where a definition embeds one of those, its doc comment says
`Modelled from the spec:` and names the missing module.

Python values that flow through the server are JSON values (the body of a
POST request, the fields read out of it, the responses).  The embedding
mirrors the Python semantics that the server code actually exercises:
dictionary lookup, the `in` operator, `str.lower().strip()`, `isinstance`
checks (a Python `bool` is an instance of `int`), and the `int()`
conversion.  Exceptions that the Python code would raise and not catch are
represented by `Except.error` outcomes carrying the exception kind.
-/

namespace Pippin

/-- JSON values as the rapidjson parser materialises them into Python
objects: `null` is Python `None`, objects become dicts (insertion order
preserved, keys unique), arrays become lists.  Floats do not occur in any
request the verified claims are about and are omitted. -/
inductive Json where
  | null : Json
  | bool (b : Bool) : Json
  | int (n : Int) : Json
  | str (s : String) : Json
  | arr (elems : List Json) : Json
  | obj (fields : List (String × Json)) : Json

mutual

/-- Decidable equality for `Json` (the derive handler does not support the
nested occurrence of `Json` under `List`). -/
def Json.decEq : (a b : Json) → Decidable (a = b)
  | .null, .null => .isTrue rfl
  | .bool a, .bool b =>
    if h : a = b then .isTrue (h ▸ rfl) else .isFalse (fun hh => h (Json.bool.inj hh))
  | .int a, .int b =>
    if h : a = b then .isTrue (h ▸ rfl) else .isFalse (fun hh => h (Json.int.inj hh))
  | .str a, .str b =>
    if h : a = b then .isTrue (h ▸ rfl) else .isFalse (fun hh => h (Json.str.inj hh))
  | .arr xs, .arr ys =>
    match Json.decEqList xs ys with
    | .isTrue h => .isTrue (h ▸ rfl)
    | .isFalse h => .isFalse (fun hh => h (Json.arr.inj hh))
  | .obj xs, .obj ys =>
    match Json.decEqFields xs ys with
    | .isTrue h => .isTrue (h ▸ rfl)
    | .isFalse h => .isFalse (fun hh => h (Json.obj.inj hh))
  | .null, .bool _ | .null, .int _ | .null, .str _ | .null, .arr _ | .null, .obj _
  | .bool _, .null | .bool _, .int _ | .bool _, .str _ | .bool _, .arr _ | .bool _, .obj _
  | .int _, .null | .int _, .bool _ | .int _, .str _ | .int _, .arr _ | .int _, .obj _
  | .str _, .null | .str _, .bool _ | .str _, .int _ | .str _, .arr _ | .str _, .obj _
  | .arr _, .null | .arr _, .bool _ | .arr _, .int _ | .arr _, .str _ | .arr _, .obj _
  | .obj _, .null | .obj _, .bool _ | .obj _, .int _ | .obj _, .str _ | .obj _, .arr _ =>
    .isFalse (fun hh => Json.noConfusion hh)

/-- Decidable equality for lists of `Json` values. -/
def Json.decEqList : (xs ys : List Json) → Decidable (xs = ys)
  | [], [] => .isTrue rfl
  | [], _ :: _ => .isFalse (fun hh => List.noConfusion hh)
  | _ :: _, [] => .isFalse (fun hh => List.noConfusion hh)
  | x :: xs, y :: ys =>
    match Json.decEq x y, Json.decEqList xs ys with
    | .isTrue h1, .isTrue h2 => .isTrue (h1 ▸ h2 ▸ rfl)
    | .isFalse h1, _ => .isFalse (fun hh => h1 (List.cons.inj hh).1)
    | _, .isFalse h2 => .isFalse (fun hh => h2 (List.cons.inj hh).2)

/-- Decidable equality for the field lists of `Json` objects. -/
def Json.decEqFields : (xs ys : List (String × Json)) → Decidable (xs = ys)
  | [], [] => .isTrue rfl
  | [], _ :: _ => .isFalse (fun hh => List.noConfusion hh)
  | _ :: _, [] => .isFalse (fun hh => List.noConfusion hh)
  | (k, v) :: xs, (k', v') :: ys =>
    match String.decEq k k', Json.decEq v v', Json.decEqFields xs ys with
    | .isTrue h0, .isTrue h1, .isTrue h2 => .isTrue (h0 ▸ h1 ▸ h2 ▸ rfl)
    | .isFalse h0, _, _ =>
      .isFalse (fun hh => h0 (congrArg Prod.fst (List.cons.inj hh).1))
    | _, .isFalse h1, _ =>
      .isFalse (fun hh => h1 (congrArg Prod.snd (List.cons.inj hh).1))
    | _, _, .isFalse h2 => .isFalse (fun hh => h2 (List.cons.inj hh).2)

end

instance : DecidableEq Json := Json.decEq

/-- The error kinds the block pipeline raises (spec section 4.7 and 4.8);
the handlers in `pippin_server.py` catch them selectively and map them to
wire strings. -/
inductive PipelineErr where
  | accountNotFound : PipelineErr
  | blockNotFound : PipelineErr
  | workFailed : PipelineErr
  | processFailed : PipelineErr
  | insufficientBalance : PipelineErr
deriving DecidableEq

/-- Exceptions a handler can raise without catching them; an `Except.error`
carrying one of these models a Python exception escaping to aiohttp, which
answers the HTTP request with a transport-level 500 instead of a JSON body.
`uncaught e` is a pipeline error kind that the enclosing handler has no
`except` clause for. -/
inductive PyExc where
  | keyError (key : String) : PyExc
  | valueError : PyExc
  | typeError : PyExc
  | attributeError : PyExc
  | nameError : PyExc
  | jsonDecodeError : PyExc
  | uncaught (e : PipelineErr) : PyExc
deriving DecidableEq

/-- Lookup in a Python dict rendered as an association list. -/
def lookupField : List (String × Json) → String → Option Json
  | [], _ => none
  | (k', v) :: rest, k => if k' = k then some v else lookupField rest k

/-- Dict lookup `d.get(k)`; `none` when the value is not a dict or the key
is absent. -/
def Json.get? : Json → String → Option Json
  | .obj fields, k => lookupField fields k
  | _, _ => none

/-- Dict assignment `d[k] = v`: replaces the value in place, appends when
the key is new; identity on non-dicts (the server only assigns into the
parsed request dict). -/
def setField : List (String × Json) → String → Json → List (String × Json)
  | [], k, v => [(k, v)]
  | (k', v') :: rest, k, v =>
    if k' = k then (k, v) :: rest else (k', v') :: setField rest k v

/-- Dict assignment at the `Json` level. -/
def Json.setKey : Json → String → Json → Json
  | .obj fields, k, v => .obj (setField fields k v)
  | j, _, _ => j

/-- Whether the first character list starts the second. -/
def listStartsWith : List Char → List Char → Bool
  | [], _ => true
  | _ :: _, [] => false
  | c :: cs, d :: ds => c = d && listStartsWith cs ds

/-- Whether the first character list occurs inside the second. -/
def listOccursIn (needle : List Char) : List Char → Bool
  | [] => listStartsWith needle []
  | d :: ds => listStartsWith needle (d :: ds) || listOccursIn needle ds

/-- Python `k in x` for a string `k`: key test on dicts, membership on
lists, substring test on strings, `TypeError` on the remaining values. -/
def pyContains (j : Json) (k : String) : Except PyExc Bool :=
  match j with
  | .obj fields => .ok (lookupField fields k).isSome
  | .arr elems => .ok (elems.contains (.str k))
  | .str s => .ok (listOccursIn k.data s.data)
  | _ => .error .typeError

/-- Python `x[k]` for a string `k`: dict item access (`KeyError` when the
key is absent), `TypeError` on lists, strings and scalars. -/
def pySubscript (j : Json) (k : String) : Except PyExc Json :=
  match j with
  | .obj fields =>
    match lookupField fields k with
    | some v => .ok v
    | none => .error (.keyError k)
  | _ => .error .typeError

/-- The characters Python's `str.strip()` removes. -/
def isPySpace (c : Char) : Bool :=
  c = ' ' ∨ c = '\t' ∨ c = '\n' ∨ c = '\r' ∨ c = '\x0b' ∨ c = '\x0c'

/-- Remove leading and trailing whitespace from a character list. -/
def stripChars (cs : List Char) : List Char :=
  ((cs.dropWhile isPySpace).reverse.dropWhile isPySpace).reverse

/-- Python `s.lower().strip()` as the gateway applies it to the action
string (the actions of interest are ASCII, where `Char.toLower` agrees
with Python's lowercasing). -/
def pyLowerStrip (s : String) : String :=
  String.mk (stripChars (s.data.map Char.toLower))

/-- Python `isinstance(x, int)`: true for ints and also for bools, because
`bool` is a subclass of `int`. -/
def pyIsInstanceInt : Json → Bool
  | .int _ => true
  | .bool _ => true
  | _ => false

/-- Python `isinstance(x, bool)`. -/
def pyIsInstanceBool : Json → Bool
  | .bool _ => true
  | _ => false

/-- Numeric value of a Python int-like value (`True` counts as 1). -/
def pyIntValue : Json → Int
  | .int n => n
  | .bool b => if b then 1 else 0
  | _ => 0

/-- Decimal value of a digit character list. -/
def digitsToNat (cs : List Char) : Nat :=
  cs.foldl (fun acc c => acc * 10 + (c.toNat - 48)) 0

/-- Python `int(x)`: identity on ints, 0/1 on bools, decimal parse with
optional surrounding whitespace and an optional sign on strings
(`ValueError` when the parse fails), `TypeError` on the remaining values.
Underscore digit grouping is not modelled; no claim exercises it. -/
def pyInt (j : Json) : Except PyExc Int :=
  match j with
  | .int n => .ok n
  | .bool b => .ok (if b then 1 else 0)
  | .str s =>
    let t := stripChars s.data
    let core := match t with
      | '-' :: rest => rest
      | '+' :: rest => rest
      | _ => t
    if core ≠ [] ∧ core.all Char.isDigit then
      .ok (match t with
           | '-' :: _ => -(digitsToNat core : Int)
           | _ => (digitsToNat core : Int))
    else .error .valueError
  | _ => .error .typeError

/-! ## Wallet data model

Modelled from the spec: `db/models/wallet.py` is not among the given
sources.  Section 3 of the spec describes wallets (id, seed, `encrypted`
flag, optional representative, deterministic index) and accounts (address
plus optional representative override).  The passphrase able to decrypt an
encrypted wallet is carried as `password`; the symmetric encryption layer
of section 4.3 is abstracted to comparing that passphrase. -/

/-- An account row: its address and the optional per-account representative
override (spec section 3, "Account"). -/
structure Account where
  address : String
  representative : Option String
deriving DecidableEq

/-- A wallet row (spec section 3, "Wallet").  `password` is the passphrase
under which the secrets are encrypted while `encrypted` is set; it stands
in for the ciphertext of the encryption layer. -/
structure Wallet where
  id : String
  seed : String
  encrypted : Bool
  password : Option String
  representative : Option String
  accounts : List Account
  deterministic_index : Nat
deriving DecidableEq

/-- A block row recorded for every state block the server has created
(spec section 3, "Block").  `send_id` keeps the client-supplied JSON value
of the idempotency key. -/
structure BlockRow where
  wallet_id : String
  block_hash : String
  account : String
  subtype : String
  send_id : Option Json
deriving DecidableEq

/-- A state block as assembled by the pipeline (spec section 4.8).  The
balance is kept as an unbounded integer, matching Python's int. -/
structure StateBlock where
  account : String
  previous : String
  representative : String
  balance : Int
  link : String
deriving DecidableEq

/-- The persistent state the server mutates: the wallet table, the block
table, the list of blocks published to the node (in publication order) and
a counter standing in for the randomness consumed by wallet creation. -/
structure Store where
  wallets : List Wallet
  blocks : List BlockRow
  published : List (StateBlock × String)
  fresh : Nat
deriving DecidableEq

/-- Replace the wallet with the same id (wallet ids are unique). -/
def Store.updateWallet (s : Store) (w : Wallet) : Store :=
  { s with wallets := s.wallets.map (fun w' => if w'.id = w.id then w else w') }

/-- Outcome of `Wallet.get_wallet` (spec section 4.7): the wallet, or
`WalletNotFound`, or `WalletLocked` carrying the still-encrypted record. -/
inductive GetWalletResult where
  | found (w : Wallet) : GetWalletResult
  | notFound : GetWalletResult
  | locked (w : Wallet) : GetWalletResult
deriving DecidableEq

/-- Modelled from the spec: `get_wallet(id)` returns the wallet, fails with
`WalletNotFound` if absent and with `WalletLocked` (carrying the record) if
the wallet's `encrypted` flag is set (spec section 4.7).  Wallet ids are
hexadecimal strings, so a non-string id matches no wallet. -/
def Wallet.get_wallet (s : Store) (id : Json) : GetWalletResult :=
  match id with
  | .str i =>
    match s.wallets.find? (fun w => w.id = i) with
    | none => .notFound
    | some w => if w.encrypted then .locked w else .found w
  | _ => .notFound

/-- Modelled from the spec: lookup of an account by `(wallet, address)`
(spec section 4.4). -/
def Wallet.get_account (w : Wallet) (address : String) : Option Account :=
  w.accounts.find? (fun a => a.address = address)

/-- Modelled from the spec: deterministic account derivation
(`address(public_of(blake2b256(seed || be32(index))))`, spec sections 4.1
and 8).  The ed25519/Blake2b key derivation and the base-32 codec are
outside this embedding; derivation is abstracted to an injective encoding
of seed and index, which no verified claim inspects. -/
def derive_address (seed : String) (index : Nat) : String :=
  "acct:" ++ seed ++ ":" ++ toString index

/-- Modelled from the spec: the address of an adhoc account derived from a
raw private key (spec section 4.7, `adhoc_account_create`), abstracted like
`derive_address`. -/
def adhoc_address (key : String) : String :=
  "adhoc:" ++ key

/-- Modelled from the spec: the default representative configured for the
network; configuration parsing is an external collaborator (spec section
4.8 step 2). -/
def default_representative : String :=
  "rep:default"

/-- Modelled from the spec: `account_create(wallet)` selects the wallet's
next deterministic index, inserts the account and returns its address
(spec section 4.7). -/
def Wallet.account_create (w : Wallet) : Wallet × String :=
  let addr := derive_address w.seed w.deterministic_index
  ({ w with
      accounts := w.accounts ++ [{ address := addr, representative := none }],
      deterministic_index := w.deterministic_index + 1 },
   addr)

/-- Modelled from the spec: `accounts_create(wallet, n)` derives `n`
contiguous indices (spec section 4.7); a non-positive count derives
nothing. -/
def Wallet.accounts_create (w : Wallet) (count : Int) : Wallet × List String :=
  (List.range count.toNat).foldl
    (fun (acc : Wallet × List String) _ =>
      let (w', addr) := acc.1.account_create
      (w', acc.2 ++ [addr]))
    (w, [])

/-- Outcome of `unlock_wallet` (spec section 4.7): success hands back the
wallet with its secrets decrypted at rest, a wrong passphrase fails with
`DecryptionError`, and a non-string passphrase raises. -/
inductive UnlockResult where
  | unlocked (w : Wallet) : UnlockResult
  | decryptionError : UnlockResult
  | raised (e : PyExc) : UnlockResult
deriving DecidableEq

/-- Modelled from the spec: `unlock(wallet, passphrase)` decrypts the seed
and fails with `DecryptionError` on tag mismatch (spec section 4.7).  On
success the stored secrets are plaintext again, which clears the
`encrypted` flag the locked/unlocked lifecycle is keyed on. -/
def Wallet.unlock_wallet (w : Wallet) (passphrase : Json) : UnlockResult :=
  match passphrase with
  | .str p => if w.password = some p then .unlocked { w with encrypted := false }
              else .decryptionError
  | _ => .raised .typeError

/-- Modelled from the spec: `encrypt_wallet(wallet, passphrase)` performs
first-time encryption or a passphrase change, re-encrypting all secrets
(spec section 4.7). -/
def Wallet.encrypt_wallet (w : Wallet) (passphrase : Json) : Except PyExc Wallet :=
  match passphrase with
  | .str p => .ok { w with encrypted := true, password := some p }
  | _ => .error .typeError

/-- Modelled from the spec: `lock(wallet)` re-encrypts every secret using
the key material cached by the last unlock; when no such material is held
the lock is a no-op at the data level (spec section 4.7). -/
def Wallet.lock_wallet (w : Wallet) : Wallet :=
  match w.password with
  | some _ => { w with encrypted := true }
  | none => w

/-- Modelled from the spec: `adhoc_account_create(wallet, priv)` derives
the public address, fails with `AccountAlreadyExists` when that address is
already in the wallet, and otherwise inserts the account (spec section
4.7). -/
def Wallet.adhoc_account_create (w : Wallet) (key : String) : Option (Wallet × String) :=
  let addr := adhoc_address key
  if (w.accounts.find? (fun a => a.address = addr)).isSome then none
  else some ({ w with accounts := w.accounts ++ [{ address := addr, representative := none }] },
             addr)

/-! ## Upstream node and work oracles

The node RPC client and the proof-of-work routines are external
collaborators (spec sections 4.5 and 4.6); their responses are supplied as
oracle functions of a `Node` value. -/

/-- The `account_info` view of an account on the upstream node: frontier
hash, raw balance and current representative (spec section 4.5). -/
structure AccountInfo where
  frontier : String
  balance : Int
  representative : String
deriving DecidableEq

/-- The `block_info` view of a source block used to compute a receive
amount: the balances before and after the send (spec sections 4.5 and
4.8). -/
structure SourceInfo where
  prior_balance : Int
  new_balance : Int
deriving DecidableEq

/-- The external collaborators of the pipeline, as response oracles:
`account_info` and `block_info` lookups, `process` (publishing a signed
block of a given subtype, returning its hash or failing), local/peer work
generation, verification of caller-supplied work, and `make_request` for
the gateway's proxy path. -/
structure Node where
  account_info : String → Option AccountInfo
  block_info : String → Option SourceInfo
  process : StateBlock → String → Option String
  gen_work : String → Option String
  work_valid : String → Json → Bool
  proxy : Json → Json

/-! ## Block pipeline

Modelled from the spec: `util/wallet.py` (class `WalletUtil`) is not among
the given sources; the `send`, `receive` and `representative_set`
operations below follow spec section 4.8 step by step. -/

/-- The `{"block": hash}` success response of the pipeline. -/
def blockJson (hash : String) : Json :=
  .obj [("block", .str hash)]

/-- Whether a block row matches a `(wallet, send_id)` pair. -/
def rowMatches (wallet_id : String) (send_id : Json) (b : BlockRow) : Bool :=
  b.wallet_id = wallet_id ∧ b.send_id = some send_id

/-- The recorded block row of the first send with the given id on the
given wallet, if any (spec section 4.4, "fetch block by
`(wallet, send_id)`"). -/
def firstSendRow (s : Store) (wallet_id : String) (send_id : Json) : Option BlockRow :=
  s.blocks.find? (rowMatches wallet_id send_id)

/-- Work attachment shared by the three block types (spec section 4.8
step 4 of `send` and `receive`): caller-supplied work is verified against
the root and rejected with `WorkFailed` on mismatch, otherwise the work
client is asked. -/
def attachWork (node : Node) (root : String) (work : Option Json) : Except PipelineErr Unit :=
  match work with
  | some wk => if node.work_valid root wk then .ok () else .error .workFailed
  | none =>
    match node.gen_work root with
    | some _ => .ok ()
    | none => .error .workFailed

/-- The block-building path of the pipeline `send` (spec section 4.8
steps 2-4): fetch the frontier (`prior_balance < amount` fails with
`InsufficientBalance`), build the state block with the frontier as
`previous`, the reduced balance and the destination as link, attach work
over `previous`, publish with subtype `send`, persist the row including
`send_id`, return the hash. -/
def WalletUtil.send_create (node : Node) (s : Store) (w : Wallet) (acct : Account)
    (amount : Int) (destination : String) (id : Option Json) (work : Option Json) :
    Except PipelineErr (Json × Store) :=
  match node.account_info acct.address with
  | none => .error .accountNotFound
  | some info =>
    if info.balance < amount then .error .insufficientBalance
    else
      let block : StateBlock :=
        { account := acct.address
          previous := info.frontier
          representative := info.representative
          balance := info.balance - amount
          link := destination }
      match attachWork node info.frontier work with
      | .error e => .error e
      | .ok _ =>
        match node.process block "send" with
        | none => .error .processFailed
        | some hash =>
          .ok (blockJson hash,
               { s with
                  blocks := s.blocks ++
                    [{ wallet_id := w.id, block_hash := hash, account := acct.address,
                       subtype := "send", send_id := id }]
                  published := s.published ++ [(block, "send")] })

/-- Modelled from the spec: `send(source, destination, amount, id?, work?)`
(spec section 4.8).  Step 1: when `id` is supplied and a block row exists
for `(wallet, id)`, the recorded hash of the first such row is returned
without touching any state; otherwise the block-building path runs. -/
def WalletUtil.send (node : Node) (s : Store) (w : Wallet) (acct : Account)
    (amount : Int) (destination : String) (id : Option Json) (work : Option Json) :
    Except PipelineErr (Json × Store) :=
  match id with
  | some i =>
    match firstSendRow s w.id i with
    | some row => .ok (blockJson row.block_hash, s)
    | none => WalletUtil.send_create node s w acct amount destination id work
  | none => WalletUtil.send_create node s w acct amount destination id work

/-- The all-zero hash used as `previous` of an open block and as the link
of a change block (spec section 4.8). -/
def zeroHash : String :=
  "0000000000000000000000000000000000000000000000000000000000000000"

/-- Modelled from the spec: `receive(account, source_hash, work?)` (spec
section 4.8).  The receivable amount is the source block's previous
balance minus its new balance; a missing frontier makes it an open block
rooted at the account key, otherwise a receive block on the frontier. -/
def WalletUtil.receive (node : Node) (s : Store) (w : Wallet) (acct : Account)
    (source_hash : String) (work : Option Json) :
    Except PipelineErr (Json × Store) :=
  match node.block_info source_hash with
  | none => .error .blockNotFound
  | some src =>
    let amount := src.prior_balance - src.new_balance
    let (block, subtype, root) :=
      match node.account_info acct.address with
      | none =>
        ({ account := acct.address
           previous := zeroHash
           representative :=
             (acct.representative.orElse (fun _ => w.representative)).getD
               default_representative
           balance := amount
           link := source_hash : StateBlock }, "open", acct.address)
      | some info =>
        ({ account := acct.address
           previous := info.frontier
           representative := info.representative
           balance := info.balance + amount
           link := source_hash : StateBlock }, "receive", info.frontier)
    match attachWork node root work with
    | .error e => .error e
    | .ok _ =>
      match node.process block subtype with
      | none => .error .processFailed
      | some hash =>
        .ok (blockJson hash,
             { s with
                blocks := s.blocks ++
                  [{ wallet_id := w.id, block_hash := hash, account := acct.address,
                     subtype := subtype, send_id := none }]
                published := s.published ++ [(block, subtype)] })

/-- Modelled from the spec: `representative_set(account, rep, work?)` (spec
section 4.8): a change block on the frontier with unchanged balance and a
zero link; fails with `AccountNotFound` when the account has no
frontier. -/
def WalletUtil.representative_set (node : Node) (s : Store) (w : Wallet) (acct : Account)
    (rep : String) (work : Option Json) :
    Except PipelineErr (Json × Store) :=
  match node.account_info acct.address with
  | none => .error .accountNotFound
  | some info =>
    let block : StateBlock :=
      { account := acct.address
        previous := info.frontier
        representative := rep
        balance := info.balance
        link := zeroHash }
    match attachWork node info.frontier work with
    | .error e => .error e
    | .ok _ =>
      match node.process block "change" with
      | none => .error .processFailed
      | some hash =>
        .ok (blockJson hash,
             { s with
                blocks := s.blocks ++
                  [{ wallet_id := w.id, block_hash := hash, account := acct.address,
                     subtype := "change", send_id := none }]
                published := s.published ++ [(block, "change")] })

/-! ## Server handlers

These embed the route methods of `PippinServer` in
`src/server/pippin_server.py` one by one.  Each handler takes the current
store and the parsed request dict and yields either a JSON response with
the updated store, or an uncaught Python exception. -/

/-- The `{"error": msg}` response shape. -/
def errJson (msg : String) : Json :=
  .obj [("error", .str msg)]

/-- `generic_error` (src lines 38-44): the node's generic response to a bad
request. -/
def genericErrorJson : Json :=
  errJson "Unable to parse json"

/-- Dict item access defaulting to null; used only where the surrounding
checks guarantee the key is present. -/
def Json.get! (j : Json) (k : String) : Json :=
  (j.get? k).getD .null

/-- The string payload of a JSON string, used only where the surrounding
validation guarantees the value is a string. -/
def jsonStrD : Json → String
  | .str s => s
  | _ => ""

/-- Modelled from the spec: `Validators.is_valid_block_hash`
(`util/validators.py` is not among the given sources); per spec section
4.7 a valid seed or hash is a 64 character hexadecimal string. -/
def is_valid_block_hash_str (s : String) : Bool :=
  s.data.length == 64 &&
    s.data.all (fun c => c.isDigit || ('a' ≤ c && c ≤ 'f') || ('A' ≤ c && c ≤ 'F'))

/-- The block-hash validator applied to a raw JSON field (a non-string is
never a valid hash). -/
def is_valid_block_hash_json (j : Json) : Bool :=
  match j with
  | .str s => is_valid_block_hash_str s
  | _ => false

/-- The address validator applied to a raw JSON field.  `util/validators.py`
is not among the given sources and its `is_valid_address` involves the full
base-32/Blake2b address codec of spec section 4.2, so the handlers take the
string-level validator as the parameter `validAddr`; a non-string is never
a valid address. -/
def validAddrJson (validAddr : String → Bool) (j : Json) : Bool :=
  match j with
  | .str a => validAddr a
  | _ => false

/-- The ORM `.limit(count)` query over a wallet's accounts; a bool count is
an int in Python, any other non-integer limit is rejected in the database
layer. -/
def queryLimit (accounts : List Account) : Json → Except PyExc (List Account)
  | .int n => .ok (accounts.take n.toNat)
  | .bool b => .ok (accounts.take (if b then 1 else 0))
  | _ => .error .typeError

/-- Embeds `PippinServer.wallet_create` (src lines 98-118): validate or
randomize the seed, insert the wallet and its deterministic account at
index 0 in one transaction, return the wallet id.  The randomness of
`RandomUtil.generate_seed` and of the wallet id is drawn from the store's
`fresh` counter. -/
def PippinServer.wallet_create (s : Store) (req : Json) : Except PyExc (Json × Store) :=
  let seedResult : Except Json String :=
    match req.get? "seed" with
    | some (.str sd) =>
      if is_valid_block_hash_str sd then .ok sd else .error (errJson "Invalid seed")
    | some _ => .error (errJson "Invalid seed")
    | none => .ok ("seed:" ++ toString s.fresh)
  match seedResult with
  | .error e => .ok (e, s)
  | .ok sd =>
    let w0 : Wallet :=
      { id := "wallet:" ++ toString s.fresh, seed := sd, encrypted := false,
        password := none, representative := none, accounts := [],
        deterministic_index := 0 }
    let (w1, _) := w0.account_create
    .ok (.obj [("wallet", .str w1.id)],
         { s with wallets := s.wallets ++ [w1], fresh := s.fresh + 1 })

/-- Embeds `PippinServer.account_create` (src lines 120-147). -/
def PippinServer.account_create (s : Store) (req : Json) : Except PyExc (Json × Store) :=
  match req.get? "wallet" with
  | none => .ok (genericErrorJson, s)
  | some wid =>
    match Wallet.get_wallet s wid with
    | .notFound => .ok (errJson "wallet not found", s)
    | .locked _ => .ok (errJson "wallet locked", s)
    | .found w =>
      let (w', addr) := w.account_create
      .ok (.obj [("account", .str addr)], s.updateWallet w')

/-- Embeds `PippinServer.accounts_create` (src lines 149-176): the request
is rejected with the generic parse error unless `wallet` is present and
`count` is present and passes `isinstance(count, int)` (which a Python bool
also passes). -/
def PippinServer.accounts_create (s : Store) (req : Json) : Except PyExc (Json × Store) :=
  if (req.get? "wallet").isNone || (req.get? "count").isNone ||
     !(pyIsInstanceInt (req.get! "count")) then
    .ok (genericErrorJson, s)
  else
    match Wallet.get_wallet s (req.get! "wallet") with
    | .notFound => .ok (errJson "wallet not found", s)
    | .locked _ => .ok (errJson "wallet locked", s)
    | .found w =>
      let (w', addrs) := w.accounts_create (pyIntValue (req.get! "count"))
      .ok (.obj [("accounts", .arr (addrs.map Json.str))], s.updateWallet w')

/-- Embeds `PippinServer.account_list` (src lines 178-204).  The source
reads `request_json['acount']` inside the guard
`'count' in request_json and isinstance(request_json['acount'], int)`, so
whenever `count` is present but `acount` is not, the dict access raises
`KeyError('acount')` before the wallet is ever looked up. -/
def PippinServer.account_list (s : Store) (req : Json) : Except PyExc (Json × Store) :=
  match req.get? "wallet" with
  | none => .ok (genericErrorJson, s)
  | some wid =>
    let countResult : Except PyExc Json :=
      if (req.get? "count").isSome then
        match req.get? "acount" with
        | none => .error (.keyError "acount")
        | some ac => .ok (if pyIsInstanceInt ac then req.get! "count" else .int 1000)
      else .ok (.int 1000)
    match countResult with
    | .error e => .error e
    | .ok count =>
      match Wallet.get_wallet s wid with
      | .notFound => .ok (errJson "wallet not found", s)
      | .locked _ => .ok (errJson "wallet locked", s)
      | .found w =>
        match queryLimit w.accounts count with
        | .error e => .error e
        | .ok accts =>
          .ok (.obj [("accounts", .arr (accts.map (fun a => Json.str a.address)))], s)

/-- Embeds `PippinServer.receive` (src lines 206-268).  The handler catches
`BlockNotFound`, `WorkFailed` and `ProcessFailed` from the pipeline; any
other pipeline error would escape uncaught. -/
def PippinServer.receive (validAddr : String → Bool) (node : Node) (s : Store) (req : Json) :
    Except PyExc (Json × Store) :=
  if (req.get? "wallet").isNone || (req.get? "account").isNone ||
     (req.get? "block").isNone then
    .ok (genericErrorJson, s)
  else if !(validAddrJson validAddr (req.get! "account")) then
    .ok (errJson "Invalid address", s)
  else if !(is_valid_block_hash_json (req.get! "block")) then
    .ok (errJson "Invalid block", s)
  else
    let work := req.get? "work"
    match Wallet.get_wallet s (req.get! "wallet") with
    | .notFound => .ok (errJson "wallet not found", s)
    | .locked _ => .ok (errJson "wallet locked", s)
    | .found w =>
      match w.get_account (jsonStrD (req.get! "account")) with
      | none => .ok (errJson "Account not found", s)
      | some acct =>
        match WalletUtil.receive node s w acct (jsonStrD (req.get! "block")) work with
        | .error .blockNotFound => .ok (errJson "Block not found", s)
        | .error .workFailed => .ok (errJson "Failed to generate work", s)
        | .error .processFailed => .ok (errJson "RPC Process failed", s)
        | .error e => .error (.uncaught e)
        | .ok (r, s') =>
          if r = .null then .ok (errJson "Unable to receive block", s)
          else .ok (r, s')

/-- Embeds `PippinServer.send` (src lines 270-341).  After the field and
address checks and the wallet and account lookups, the source evaluates
`int(request_json['amount'])` in the argument position of `wallet.send`;
a `ValueError` from that conversion is raised before the `try` body's
exception handlers can matter and is caught nowhere in the handler. -/
def PippinServer.send (validAddr : String → Bool) (node : Node) (s : Store) (req : Json) :
    Except PyExc (Json × Store) :=
  if (req.get? "wallet").isNone || (req.get? "source").isNone ||
     (req.get? "destination").isNone || (req.get? "amount").isNone then
    .ok (genericErrorJson, s)
  else if !(validAddrJson validAddr (req.get! "source")) then
    .ok (errJson "Invalid source", s)
  else if !(validAddrJson validAddr (req.get! "destination")) then
    .ok (errJson "Invalid destination", s)
  else
    let id := req.get? "id"
    let work := req.get? "work"
    match Wallet.get_wallet s (req.get! "wallet") with
    | .notFound => .ok (errJson "wallet not found", s)
    | .locked _ => .ok (errJson "wallet locked", s)
    | .found w =>
      match w.get_account (jsonStrD (req.get! "source")) with
      | none => .ok (errJson "Account not found", s)
      | some acct =>
        match pyInt (req.get! "amount") with
        | .error e => .error e
        | .ok amount =>
          match WalletUtil.send node s w acct amount
              (jsonStrD (req.get! "destination")) id work with
          | .error .accountNotFound => .ok (errJson "Account not found", s)
          | .error .blockNotFound => .ok (errJson "Block not found", s)
          | .error .workFailed => .ok (errJson "Failed to generate work", s)
          | .error .processFailed => .ok (errJson "RPC Process failed", s)
          | .error .insufficientBalance => .ok (errJson "insufficient balance", s)
          | .ok (r, s') =>
            if r = .null then .ok (errJson "Unable to create send block", s)
            else .ok (r, s')

/-- Embeds `PippinServer.account_representative_set` (src lines 343-405). -/
def PippinServer.account_representative_set (validAddr : String → Bool) (node : Node)
    (s : Store) (req : Json) : Except PyExc (Json × Store) :=
  if (req.get? "wallet").isNone || (req.get? "account").isNone ||
     (req.get? "representative").isNone then
    .ok (genericErrorJson, s)
  else if !(validAddrJson validAddr (req.get! "account")) then
    .ok (errJson "Invalid account", s)
  else if !(validAddrJson validAddr (req.get! "representative")) then
    .ok (errJson "Invalid representative", s)
  else
    let work := req.get? "work"
    match Wallet.get_wallet s (req.get! "wallet") with
    | .notFound => .ok (errJson "wallet not found", s)
    | .locked _ => .ok (errJson "wallet locked", s)
    | .found w =>
      match w.get_account (jsonStrD (req.get! "account")) with
      | none => .ok (errJson "Account not found", s)
      | some acct =>
        match WalletUtil.representative_set node s w acct
            (jsonStrD (req.get! "representative")) work with
        | .error .accountNotFound => .ok (errJson "Account not found", s)
        | .error .workFailed => .ok (errJson "Failed to generate work", s)
        | .error .processFailed => .ok (errJson "RPC Process failed", s)
        | .error e => .error (.uncaught e)
        | .ok (r, s') =>
          if r = .null then .ok (errJson "Unable to create change block", s)
          else .ok (r, s')

/-- Embeds `PippinServer.password_change` (src lines 407-434).  The
pre-fetch `Wallet.filter(id=...).first()` on line 413 has no observable
effect; the `get_wallet` lookup that follows is authoritative. -/
def PippinServer.password_change (s : Store) (req : Json) : Except PyExc (Json × Store) :=
  if (req.get? "wallet").isNone || (req.get? "password").isNone then
    .ok (genericErrorJson, s)
  else
    match Wallet.get_wallet s (req.get! "wallet") with
    | .notFound => .ok (errJson "wallet not found", s)
    | .locked _ => .ok (errJson "wallet locked", s)
    | .found w =>
      match w.encrypt_wallet (req.get! "password") with
      | .error e => .error e
      | .ok w' => .ok (.obj [("changed", .str "1")], s.updateWallet w')

/-- Embeds `PippinServer.password_enter` (src lines 436-468): an open
wallet answers `wallet not locked`; a locked wallet is unlocked with the
supplied passphrase, `DecryptionError` mapping to `{"valid": "0"}` and
success to `{"valid": "1"}`. -/
def PippinServer.password_enter (s : Store) (req : Json) : Except PyExc (Json × Store) :=
  if (req.get? "wallet").isNone || (req.get? "password").isNone then
    .ok (genericErrorJson, s)
  else
    match Wallet.get_wallet s (req.get! "wallet") with
    | .found _ => .ok (errJson "wallet not locked", s)
    | .notFound => .ok (errJson "wallet not found", s)
    | .locked w =>
      match w.unlock_wallet (req.get! "password") with
      | .decryptionError => .ok (.obj [("valid", .str "0")], s)
      | .raised e => .error e
      | .unlocked w' => .ok (.obj [("valid", .str "1")], s.updateWallet w')

/-- Embeds `PippinServer.password_valid` (src lines 470-498).  The trailing
`return {"valid": "1"}` on line 496 runs only when `get_wallet` succeeds on
a wallet whose `encrypted` flag is set. -/
def PippinServer.password_valid (s : Store) (req : Json) : Except PyExc (Json × Store) :=
  match req.get? "wallet" with
  | none => .ok (genericErrorJson, s)
  | some wid =>
    match Wallet.get_wallet s wid with
    | .notFound => .ok (errJson "wallet not found", s)
    | .locked _ => .ok (.obj [("valid", .str "0")], s)
    | .found w =>
      if !w.encrypted then .ok (errJson "wallet not locked", s)
      else .ok (.obj [("valid", .str "1")], s)

/-- Embeds `PippinServer.wallet_representative_set` (src lines 500-537). -/
def PippinServer.wallet_representative_set (validAddr : String → Bool) (s : Store)
    (req : Json) : Except PyExc (Json × Store) :=
  if (req.get? "wallet").isNone || (req.get? "representative").isNone ||
     ((req.get? "update_existing_accounts").isSome &&
      !(pyIsInstanceBool (req.get! "update_existing_accounts"))) then
    .ok (genericErrorJson, s)
  else if !(validAddrJson validAddr (req.get! "representative")) then
    .ok (errJson "Invalid address", s)
  else
    let update_existing :=
      match req.get? "update_existing_accounts" with
      | some (.bool b) => b
      | _ => false
    match Wallet.get_wallet s (req.get! "wallet") with
    | .notFound => .ok (errJson "wallet not found", s)
    | .locked _ => .ok (errJson "wallet locked", s)
    | .found w =>
      let rep := jsonStrD (req.get! "representative")
      let w1 := { w with representative := some rep }
      let w2 :=
        if update_existing then
          { w1 with
              accounts := w1.accounts.map (fun a => { a with representative := some rep }) }
        else w1
      .ok (.obj [("set", .str "1")], s.updateWallet w2)

/-- Embeds `PippinServer.wallet_add` (src lines 539-576). -/
def PippinServer.wallet_add (s : Store) (req : Json) : Except PyExc (Json × Store) :=
  if (req.get? "wallet").isNone || (req.get? "key").isNone then
    .ok (genericErrorJson, s)
  else if !(is_valid_block_hash_json (req.get! "key")) then
    .ok (errJson "Invalid key", s)
  else
    match Wallet.get_wallet s (req.get! "wallet") with
    | .notFound => .ok (errJson "wallet not found", s)
    | .locked _ => .ok (errJson "wallet locked", s)
    | .found w =>
      match w.adhoc_account_create (jsonStrD (req.get! "key")) with
      | none => .ok (errJson "account already exists", s)
      | some (w', addr) => .ok (.obj [("account", .str addr)], s.updateWallet w')

/-- Embeds `PippinServer.wallet_lock` (src lines 578-599): the handler
locks both open wallets and already-locked ones (the `WalletLocked` branch
re-uses the carried record). -/
def PippinServer.wallet_lock (s : Store) (req : Json) : Except PyExc (Json × Store) :=
  if (req.get? "wallet").isNone then
    .ok (genericErrorJson, s)
  else
    match Wallet.get_wallet s (req.get! "wallet") with
    | .notFound => .ok (errJson "wallet not found", s)
    | .locked w => .ok (.obj [("locked", .str "1")], s.updateWallet w.lock_wallet)
    | .found w => .ok (.obj [("locked", .str "1")], s.updateWallet w.lock_wallet)

/-- Embeds `PippinServer.wallet_locked` (src lines 601-622). -/
def PippinServer.wallet_locked (s : Store) (req : Json) : Except PyExc (Json × Store) :=
  if (req.get? "wallet").isNone then
    .ok (genericErrorJson, s)
  else
    match Wallet.get_wallet s (req.get! "wallet") with
    | .notFound => .ok (errJson "wallet not found", s)
    | .locked _ => .ok (.obj [("locked", .str "1")], s)
    | .found _ => .ok (.obj [("locked", .str "0")], s)

/-! ## The gateway route -/

/-- The parse outcome of the POST body: `await request.json(...)` either
yields a Python value or raises a decode error (src line 48 performs the
call with no exception handler around it). -/
inductive Body where
  | invalid : Body
  | json (j : Json) : Body

/-- What a gateway invocation produced: the JSON response, the resulting
store, and the request forwarded to the upstream node when the proxy path
ran. -/
structure GatewayOut where
  resp : Json
  store : Store
  forwarded : Option Json
deriving DecidableEq

/-- The action strings the gateway prevents from reaching the node
directly (src line 82), in source order. -/
def unimplemented_actions : List String :=
  ["account_move", "account_remove", "receive_minimum", "receive_minimum_set",
   "search_pending", "search_pending_all", "wallet_add_watch", "wallet_balances",
   "wallet_change_seed", "wallet_contains", "wallet_destroy", "wallet_export",
   "wallet_frontiers", "wallet_history", "wallet_info", "wallet_ledger",
   "wallet_pending", "wallet_representative", "wallet_republish",
   "wallet_work_get", "work_get", "work_set"]

/-- The action strings the gateway dispatches to a wallet handler (src
lines 54-81), in source order. -/
def implemented_actions : List String :=
  ["wallet_create", "account_create", "accounts_create", "account_list",
   "receive", "send", "account_representative_set", "password_change",
   "password_enter", "password_valid", "wallet_representative_set",
   "wallet_add", "wallet_lock", "wallet_locked"]

/-- Lift a handler outcome into a gateway outcome (nothing forwarded). -/
def handled (r : Except PyExc (Json × Store)) : Except PyExc GatewayOut :=
  match r with
  | .error e => .error e
  | .ok (resp, s') => .ok { resp := resp, store := s', forwarded := none }

/-- The if/elif chain of `gateway` on the sanitized action (src lines
54-95), acting on the request dict with the sanitized action already
written back: the fourteen implemented verbs dispatch to their handlers,
the listed verbs answer `not_implemented`, everything else is forwarded to
the node and the node's response returned. -/
def dispatchAction (validAddr : String → Bool) (node : Node) (s : Store)
    (a : String) (req : Json) : Except PyExc GatewayOut :=
  if a = "wallet_create" then handled (PippinServer.wallet_create s req)
  else if a = "account_create" then handled (PippinServer.account_create s req)
  else if a = "accounts_create" then handled (PippinServer.accounts_create s req)
  else if a = "account_list" then handled (PippinServer.account_list s req)
  else if a = "receive" then handled (PippinServer.receive validAddr node s req)
  else if a = "send" then handled (PippinServer.send validAddr node s req)
  else if a = "account_representative_set" then
    handled (PippinServer.account_representative_set validAddr node s req)
  else if a = "password_change" then handled (PippinServer.password_change s req)
  else if a = "password_enter" then handled (PippinServer.password_enter s req)
  else if a = "password_valid" then handled (PippinServer.password_valid s req)
  else if a = "wallet_representative_set" then
    handled (PippinServer.wallet_representative_set validAddr s req)
  else if a = "wallet_add" then handled (PippinServer.wallet_add s req)
  else if a = "wallet_lock" then handled (PippinServer.wallet_lock s req)
  else if a = "wallet_locked" then handled (PippinServer.wallet_locked s req)
  else if a ∈ unimplemented_actions then
    .ok { resp := errJson "not_implemented", store := s, forwarded := none }
  else
    .ok { resp := node.proxy req, store := s, forwarded := some req }

/-- Embeds `PippinServer.gateway` (src lines 46-96).  The body is parsed
with no exception handler; `'action' in request_json` follows Python's `in`
semantics on whatever value the body parsed to; a present action is
lowercased and trimmed and written back into the request dict before the
dispatch chain runs. -/
def PippinServer.gateway (validAddr : String → Bool) (node : Node) (s : Store)
    (body : Body) : Except PyExc GatewayOut :=
  match body with
  | .invalid => .error .jsonDecodeError
  | .json req0 =>
    match pyContains req0 "action" with
    | .error e => .error e
    | .ok false => .ok { resp := genericErrorJson, store := s, forwarded := none }
    | .ok true =>
      match pySubscript req0 "action" with
      | .error e => .error e
      | .ok (.str a0) =>
        let a := pyLowerStrip a0
        dispatchAction validAddr node s a (req0.setKey "action" (.str a))
      | .ok _ => .error .attributeError

/-! ## Work client

Embeds `WorkClient.work_generate` in `src/network/work_client.py`.  The
concurrency of the race is abstracted to the order in which the spawned
tasks complete; each completion either hands the loop a Python value (the
peer's parsed JSON, a string from the local generator, or `None`) or an
exception raised by the task. -/

/-- A task of the initial race: a `work_generate` request to a peer URL, or
the local CPU generator. -/
inductive WorkTask where
  | peer (url : String) : WorkTask
  | localCpu : WorkTask
deriving DecidableEq

/-- Embeds the task-building prelude of `work_generate` (src lines 52-61):
one request task per configured peer, plus the local generator exactly when
the `work_failure` flag is set or the peer list is empty. -/
def initialTasks (work_urls : List String) (work_failure : Bool) : List WorkTask :=
  let tasks := work_urls.map WorkTask.peer
  if work_failure || work_urls.length == 0 then tasks ++ [WorkTask.localCpu]
  else tasks

/-- What a finished task hands the result loop: a value, or an exception
re-raised by `task.result()`. -/
inductive TaskResult where
  | value (r : Json) : TaskResult
  | exn : TaskResult
deriving DecidableEq

/-- What the result loop of `work_generate` does with one completed task
(src lines 66-87), given the current binding of the local variable
`result` from earlier iterations: win with a work value, keep waiting, or
raise out of the loop. -/
inductive LoopStep where
  | won (work : Json) : LoopStep
  | dropped (result : Option Json) : LoopStep
  | raised (e : PyExc) : LoopStep

/-- One iteration of the result loop.  A `None` result is logged and
dropped; a string is wrapped into `{"work": ...}`; a value with a `work`
key wins; a value with an `error` key is logged and dropped.  When the
task raised, the `except` block logs and then evaluates `result.cancel()`:
`result` is the local variable last bound by a previous iteration - unbound
on the first failure (`NameError`), and a dict, list, string or `None`
otherwise, none of which has a `cancel` attribute (`AttributeError`). -/
def loopStep (lastResult : Option Json) : TaskResult → LoopStep
  | .value r =>
    if r = .null then .dropped (some .null)
    else
      let r := match r with
        | .str w => Json.obj [("work", .str w)]
        | other => other
      match pyContains r "work" with
      | .error _ => .raised .attributeError
      | .ok true =>
        match pySubscript r "work" with
        | .error _ => .raised .attributeError
        | .ok w => .won w
      | .ok false =>
        match pyContains r "error" with
        | .error _ => .raised .attributeError
        | .ok _ => .dropped (some r)
  | .exn =>
    match lastResult with
    | none => .raised .nameError
    | some _ => .raised .attributeError

/-- The overall outcome of `work_generate`: a work value from the race,
the fallback path that records the `work_failure` flag (300 second TTL)
and performs a final local generation (src lines 89-91), or an exception
escaping the call. -/
inductive WorkGenOutcome where
  | work (w : Json) : WorkGenOutcome
  | fallbackAfterFlag : WorkGenOutcome
  | exception (e : PyExc) : WorkGenOutcome
deriving DecidableEq

/-- The result loop over the tasks in completion order, threading the
`result` variable binding. -/
def raceLoop (lastResult : Option Json) : List TaskResult → WorkGenOutcome
  | [] => .fallbackAfterFlag
  | t :: rest =>
    match loopStep lastResult t with
    | .won w => .work w
    | .dropped r => raceLoop r rest
    | .raised e => .exception e

/-- Embeds `work_generate` after the tasks are spawned, as a function of
the completed task results in completion order. -/
def work_generate_outcome (completions : List TaskResult) : WorkGenOutcome :=
  raceLoop none completions

/-! ## Invariants -/

/-- The spec section 3 invariant: for every `(wallet, send_id)` pair at
most one block row exists. -/
def UniqueSendIds (s : Store) : Prop :=
  ∀ (wid : String) (i : Json), (s.blocks.filter (rowMatches wid i)).length ≤ 1

/-! ## Concrete fixtures used by witnesses and counterexamples -/

/-- An account of the demo wallet. -/
def demoAccount : Account :=
  { address := "nano_src", representative := none }

/-- An open (unencrypted) wallet holding one account. -/
def demoWallet : Wallet :=
  { id := "w1", seed := "S1", encrypted := false, password := none,
    representative := none, accounts := [demoAccount], deterministic_index := 1 }

/-- An encrypted wallet whose passphrase is `hunter2`. -/
def demoLockedWallet : Wallet :=
  { id := "w2", seed := "S2", encrypted := true, password := some "hunter2",
    representative := none, accounts := [], deterministic_index := 0 }

/-- A recorded send block row with idempotency key `abc`. -/
def demoRow : BlockRow :=
  { wallet_id := "w1", block_hash := "H1", account := "nano_src",
    subtype := "send", send_id := some (.str "abc") }

/-- The demo store: both wallets and the recorded send row. -/
def demoStore : Store :=
  { wallets := [demoWallet, demoLockedWallet], blocks := [demoRow],
    published := [], fresh := 0 }

/-- A concrete upstream node oracle. -/
def demoNode : Node :=
  { account_info := fun a =>
      if a = "nano_src" then
        some { frontier := "F1", balance := 100, representative := "rep1" }
      else none
    block_info := fun _ => none
    process := fun _ _ => some "H2"
    gen_work := fun _ => some "wk"
    work_valid := fun _ _ => true
    proxy := fun j => Json.obj [("echo", j)] }

/-- A concrete instantiation of the missing address validator, accepting
exactly the two demo addresses. -/
def demoValidAddr : String → Bool :=
  fun a => a == "nano_src" || a == "nano_dest"

/-- A well-formed send request against the demo store. -/
def demoSendReq : Json :=
  .obj [("wallet", .str "w1"), ("source", .str "nano_src"),
        ("destination", .str "nano_dest"), ("amount", .str "7")]

/-- The state block a fresh demo send (amount 5, new id `zzz`) builds. -/
def demoSendBlock : StateBlock :=
  { account := "nano_src", previous := "F1", representative := "rep1",
    balance := 95, link := "nano_dest" }

/-- The demo store after that fresh send is published and persisted. -/
def demoStoreAfterSend : Store :=
  { demoStore with
      blocks := demoStore.blocks ++
        [{ wallet_id := "w1", block_hash := "H2", account := "nano_src",
           subtype := "send", send_id := some (.str "zzz") }]
      published := demoStore.published ++ [(demoSendBlock, "send")] }

/-! ## Theorems -/

/-- Claim C6: in `work_generate`, the local CPU generation task is part of
the initial race exactly when the configured peer URL list is empty or the
`work_failure` flag is set; with peers configured and the flag clear, the
initial tasks are precisely the peer requests. -/
theorem work_local_task_iff (urls : List String) (flag : Bool) :
    (WorkTask.localCpu ∈ initialTasks urls flag ↔ (urls = [] ∨ flag = true)) ∧
    (urls ≠ [] → flag = false → initialTasks urls flag = urls.map WorkTask.peer) := by
  unfold initialTasks
  cases flag with
  | false =>
    cases urls with
    | nil => simp
    | cons u us => simp [List.mem_map]
  | true => simp [List.mem_map]

/-- Witness for C6: with one peer and the flag clear, only the peer task
is spawned. -/
theorem work_local_task_iff_witness :
    initialTasks ["StringPeerUrl"] false = (["StringPeerUrl"] : List String).map WorkTask.peer :=
  (work_local_task_iff ["StringPeerUrl"] false).2 (List.cons_ne_nil _ _) rfl

/-- Claim C7 evaluated on the code: a spawned task that raises makes the
result loop's `except` handler evaluate `result.cancel()` on a variable
that is either unbound (`NameError`) or bound to a value with no `cancel`
attribute (`AttributeError`), so the exception escapes `work_generate`
instead of being dropped; only when every task returns an `error` or
`None` value does the loop reach the failure-flag fallback, and a `work`
result wins the race. -/
theorem work_generate_task_exception_escapes :
    work_generate_outcome [TaskResult.exn] = .exception .nameError ∧
    work_generate_outcome
        [TaskResult.value (Json.obj [("error", Json.str "no work")]),
         TaskResult.value Json.null] = .fallbackAfterFlag ∧
    work_generate_outcome [TaskResult.value Json.null, TaskResult.exn] =
      .exception .attributeError ∧
    work_generate_outcome [TaskResult.value (Json.str "w0")] = .work (Json.str "w0") :=
  ⟨rfl, rfl, rfl, rfl⟩

/-- Claim C8 evaluated on the code: an `account_list` request for an
existing open wallet carrying the integer field `count` (and no field
named `acount`) raises `KeyError('acount')` out of the handler instead of
listing accounts, because the guard reads `request_json['acount']`. -/
theorem account_list_count_keyerror :
    PippinServer.account_list demoStore
        (Json.obj [("action", Json.str "account_list"), ("wallet", Json.str "w1"),
                   ("count", Json.int 5)]) =
      .error (PyExc.keyError "acount") := rfl

/-- Helper: a wallet that `get_wallet` returns successfully has its
`encrypted` flag clear, because the encrypted branch raises
`WalletLocked`. -/
theorem get_wallet_found_unencrypted (s : Store) (id : Json) (w : Wallet)
    (h : Wallet.get_wallet s id = .found w) : w.encrypted = false := by
  unfold Wallet.get_wallet at h
  split at h
  · split at h
    · exact absurd h (by simp)
    · split at h
      · exact absurd h (by simp)
      · rename_i henc
        cases h
        simpa using henc
  · exact absurd h (by simp)

/-- Claim C4: `get_wallet` fails with `WalletNotFound` when no wallet has
the id, fails with `WalletLocked` whenever the `encrypted` flag is set, and
hence only ever returns wallets with `encrypted = false`; consequently the
`password_valid` branch that answers `{"valid": "1"}` - reachable only when
`get_wallet` succeeds on an encrypted wallet - never executes. -/
theorem get_wallet_contract_and_valid_one_unreachable :
    (∀ (s : Store) (i : String),
        s.wallets.find? (fun w => w.id = i) = none →
        Wallet.get_wallet s (.str i) = .notFound) ∧
    (∀ (s : Store) (i : String) (w : Wallet),
        s.wallets.find? (fun w' => w'.id = i) = some w → w.encrypted = true →
        Wallet.get_wallet s (.str i) = .locked w) ∧
    (∀ (s : Store) (id : Json) (w : Wallet),
        Wallet.get_wallet s id = .found w → w.encrypted = false) ∧
    (∀ (s : Store) (req : Json) (r : Json) (s' : Store),
        PippinServer.password_valid s req = .ok (r, s') →
        r ≠ Json.obj [("valid", Json.str "1")]) := by
  refine ⟨?_, ?_, ?_, ?_⟩
  · intro s i h
    simp [Wallet.get_wallet, h]
  · intro s i w h henc
    simp [Wallet.get_wallet, h, henc]
  · exact get_wallet_found_unencrypted
  · intro s req r s' h
    unfold PippinServer.password_valid at h
    split at h
    · cases h; decide
    · split at h
      · cases h; decide
      · cases h; decide
      · rename_i w hw
        rw [get_wallet_found_unencrypted s _ w hw] at h
        simp only [Bool.not_false, if_true] at h
        cases h
        decide

/-- Witness for C4: the demo store exercises each hypothesis - a missing
id, the encrypted wallet, the open wallet, and a concrete `password_valid`
call whose response is not `{"valid": "1"}`. -/
theorem get_wallet_contract_witness :
    Wallet.get_wallet demoStore (.str "nosuch") = .notFound ∧
    Wallet.get_wallet demoStore (.str "w2") = .locked demoLockedWallet ∧
    demoWallet.encrypted = false ∧
    errJson "wallet not locked" ≠ Json.obj [("valid", Json.str "1")] :=
  ⟨get_wallet_contract_and_valid_one_unreachable.1 demoStore "nosuch" rfl,
   get_wallet_contract_and_valid_one_unreachable.2.1 demoStore "w2" demoLockedWallet rfl rfl,
   get_wallet_contract_and_valid_one_unreachable.2.2.1 demoStore (.str "w1") demoWallet rfl,
   get_wallet_contract_and_valid_one_unreachable.2.2.2 demoStore
     (Json.obj [("wallet", Json.str "w1")]) (errJson "wallet not locked") demoStore rfl⟩

/-- Claim C5: for a `password_enter` request naming an existing wallet, an
open wallet answers `wallet not locked`; a locked wallet with a wrong
passphrase answers `{"valid": "0"}`; a locked wallet with the decrypting
passphrase answers `{"valid": "1"}`. -/
theorem password_enter_outcomes (s : Store) (req : Json) (wid : Json) (pw : String)
    (w : Wallet) (hw : req.get? "wallet" = some wid)
    (hp : req.get? "password" = some (.str pw)) :
    (∀ w0, Wallet.get_wallet s wid = .found w0 →
        PippinServer.password_enter s req = .ok (errJson "wallet not locked", s)) ∧
    (Wallet.get_wallet s wid = .locked w → w.password ≠ some pw →
        PippinServer.password_enter s req =
          .ok (Json.obj [("valid", Json.str "0")], s)) ∧
    (Wallet.get_wallet s wid = .locked w → w.password = some pw →
        PippinServer.password_enter s req =
          .ok (Json.obj [("valid", Json.str "1")],
               s.updateWallet { w with encrypted := false })) := by
  refine ⟨?_, ?_, ?_⟩
  · intro w0 hg
    simp [PippinServer.password_enter, Json.get!, hw, hp, hg]
  · intro hg hne
    simp [PippinServer.password_enter, Json.get!, hw, hp, hg, Wallet.unlock_wallet, hne]
  · intro hg heq
    simp [PippinServer.password_enter, Json.get!, hw, hp, hg, Wallet.unlock_wallet, heq]

/-- Witness for C5: the open demo wallet answers `wallet not locked`; the
encrypted demo wallet answers `{"valid": "0"}` on a wrong passphrase and
`{"valid": "1"}` on `hunter2`. -/
theorem password_enter_outcomes_witness :
    PippinServer.password_enter demoStore
        (Json.obj [("wallet", Json.str "w1"), ("password", Json.str "x")]) =
      .ok (errJson "wallet not locked", demoStore) ∧
    PippinServer.password_enter demoStore
        (Json.obj [("wallet", Json.str "w2"), ("password", Json.str "wrong")]) =
      .ok (Json.obj [("valid", Json.str "0")], demoStore) ∧
    PippinServer.password_enter demoStore
        (Json.obj [("wallet", Json.str "w2"), ("password", Json.str "hunter2")]) =
      .ok (Json.obj [("valid", Json.str "1")],
           demoStore.updateWallet { demoLockedWallet with encrypted := false }) :=
  ⟨(password_enter_outcomes demoStore
      (Json.obj [("wallet", Json.str "w1"), ("password", Json.str "x")])
      (Json.str "w1") "x" demoWallet rfl rfl).1 demoWallet rfl,
   (password_enter_outcomes demoStore
      (Json.obj [("wallet", Json.str "w2"), ("password", Json.str "wrong")])
      (Json.str "w2") "wrong" demoLockedWallet rfl rfl).2.1 rfl
      (by simp [demoLockedWallet]),
   (password_enter_outcomes demoStore
      (Json.obj [("wallet", Json.str "w2"), ("password", Json.str "hunter2")])
      (Json.str "w2") "hunter2" demoLockedWallet rfl rfl).2.2 rfl rfl⟩

/-- Counterexample to claim C10 as stated: the JSON boolean `true` is not a
JSON integer, yet `isinstance(True, int)` holds in Python (bool is an int
subclass), so an `accounts_create` request with `"count": true` passes the
type check, looks up the wallet, and creates one account instead of
returning the parse error and leaving the store untouched. -/
theorem accounts_create_bool_count_passes :
    (PippinServer.accounts_create demoStore
        (Json.obj [("wallet", Json.str "w1"), ("count", Json.bool true)]) =
      .ok (Json.obj [("accounts", Json.arr [Json.str "acct:S1:1"])],
           demoStore.updateWallet
             { demoWallet with
                 accounts := [demoAccount, { address := "acct:S1:1", representative := none }],
                 deterministic_index := 2 })) ∧
    demoStore.updateWallet
        { demoWallet with
            accounts := [demoAccount, { address := "acct:S1:1", representative := none }],
            deterministic_index := 2 } ≠ demoStore :=
  ⟨rfl, by decide⟩

/-- Claim C10 as amended: an `accounts_create` request whose `count` field
is present and passes neither as an int nor as a bool (Python's
`isinstance(x, int)` accepts both) receives `{"error": "Unable to parse
json"}` with the store unchanged, whatever the store holds - so no wallet
lookup influences the outcome and no account is created. -/
theorem accounts_create_nonint_count_rejected (s : Store)
    (fields : List (String × Json)) (v : Json)
    (hc : lookupField fields "count" = some v)
    (hint : pyIsInstanceInt v = false) :
    PippinServer.accounts_create s (.obj fields) = .ok (genericErrorJson, s) := by
  simp [PippinServer.accounts_create, Json.get?, Json.get!, hc, hint]

/-- Witness for amended C10: the decimal string count `"5"` (the encoding
the reference node accepts) is rejected with the generic parse error and
the demo store is returned unchanged. -/
theorem accounts_create_nonint_count_rejected_witness :
    PippinServer.accounts_create demoStore
        (Json.obj [("wallet", Json.str "w1"), ("count", Json.str "5")]) =
      .ok (genericErrorJson, demoStore) :=
  accounts_create_nonint_count_rejected demoStore
    [("wallet", Json.str "w1"), ("count", Json.str "5")] (Json.str "5") rfl rfl

/-- Counterexample to claim C3 as stated: a POST body that does not parse
as JSON makes `request.json(...)` raise with no handler in `gateway`, so
the request ends in an uncaught exception (a transport-level 500), not in
the `{"error": "Unable to parse json"}` response; likewise a parseable
body that is a bare number (which lacks the action field) raises
`TypeError` at `'action' in request_json`. -/
theorem gateway_unparsed_body_raises :
    (PippinServer.gateway demoValidAddr demoNode demoStore Body.invalid =
       .error PyExc.jsonDecodeError) ∧
    (PippinServer.gateway demoValidAddr demoNode demoStore (.json (Json.int 5)) =
       .error PyExc.typeError) :=
  ⟨rfl, rfl⟩

/-- Claim C3 as amended: a body parsing to a JSON object without an
`action` key receives `{"error": "Unable to parse json"}`, while a body
that is not parseable JSON raises the parse exception out of the handler
(aiohttp answers with a transport-level 500 rather than the JSON error). -/
theorem gateway_parse_error_amended (v : String → Bool) (node : Node) (s : Store) :
    (PippinServer.gateway v node s Body.invalid = .error .jsonDecodeError) ∧
    (∀ fields : List (String × Json), lookupField fields "action" = none →
        PippinServer.gateway v node s (.json (.obj fields)) =
          .ok { resp := genericErrorJson, store := s, forwarded := none }) := by
  refine ⟨rfl, ?_⟩
  intro fields hna
  simp [PippinServer.gateway, pyContains, hna]

/-- Witness for amended C3: an actionless JSON object receives the generic
parse error. -/
theorem gateway_parse_error_amended_witness :
    PippinServer.gateway demoValidAddr demoNode demoStore
        (.json (Json.obj [("count", Json.int 1)])) =
      .ok { resp := genericErrorJson, store := demoStore, forwarded := none } :=
  (gateway_parse_error_amended demoValidAddr demoNode demoStore).2
    [("count", Json.int 1)] rfl

/-- Counterexample to claim C2 as stated: the explicit verb list has 22
entries, not 21; and the forwarded request is not the request JSON
verbatim - the gateway writes the lowercased and trimmed action back into
the dict before forwarding, as the concrete action `" Block_Count "`
shows. -/
theorem gateway_count_and_forward_mutation :
    unimplemented_actions.length = 22 ∧ (22 : Nat) ≠ 21 ∧
    (PippinServer.gateway demoValidAddr demoNode demoStore
        (Body.json (Json.obj [("action", Json.str " Block_Count ")])) =
      .ok { resp := demoNode.proxy (Json.obj [("action", Json.str "block_count")]),
            store := demoStore,
            forwarded := some (Json.obj [("action", Json.str "block_count")]) }) ∧
    Json.obj [("action", Json.str "block_count")] ≠
      Json.obj [("action", Json.str " Block_Count ")] :=
  ⟨rfl, by decide, rfl, by decide⟩

/-- Helper: an action of the unimplemented list answers `not_implemented`
without touching the store and without forwarding anything. -/
theorem dispatchAction_unimplemented (v : String → Bool) (node : Node) (s : Store)
    (a : String) (req : Json) (h : a ∈ unimplemented_actions) :
    dispatchAction v node s a req =
      .ok { resp := errJson "not_implemented", store := s, forwarded := none } := by
  fin_cases h <;> rfl

/-- Helper: an action outside both the implemented set and the
unimplemented list is forwarded to the node and the node's response
returned. -/
theorem dispatchAction_proxy (v : String → Bool) (node : Node) (s : Store)
    (a : String) (req : Json) (h1 : a ∉ unimplemented_actions)
    (h2 : a ∉ implemented_actions) :
    dispatchAction v node s a req =
      .ok { resp := node.proxy req, store := s, forwarded := some req } := by
  simp only [implemented_actions, List.mem_cons, List.not_mem_nil, or_false, not_or] at h2
  obtain ⟨n1, n2, n3, n4, n5, n6, n7, n8, n9, n10, n11, n12, n13, n14⟩ := h2
  simp only [dispatchAction, if_neg n1, if_neg n2, if_neg n3, if_neg n4, if_neg n5,
    if_neg n6, if_neg n7, if_neg n8, if_neg n9, if_neg n10, if_neg n11, if_neg n12,
    if_neg n13, if_neg n14, if_neg h1]

/-- Claim C2 as amended: the explicit list has 22 verbs; a request whose
sanitized action is in it receives `{"error": "not_implemented"}` and
nothing reaches the node; a request whose sanitized action is outside both
the implemented set and the list is forwarded to the node - with the
lowercased and trimmed action written back into the request dict, hence
verbatim whenever the client's action was already sanitized - and the
node's JSON response is returned as is. -/
theorem gateway_routing_amended (v : String → Bool) (node : Node) (s : Store)
    (fields : List (String × Json)) (a0 : String)
    (ha : lookupField fields "action" = some (.str a0)) :
    (pyLowerStrip a0 ∈ unimplemented_actions →
      PippinServer.gateway v node s (.json (.obj fields)) =
        .ok { resp := errJson "not_implemented", store := s, forwarded := none }) ∧
    (pyLowerStrip a0 ∉ unimplemented_actions →
      pyLowerStrip a0 ∉ implemented_actions →
      PippinServer.gateway v node s (.json (.obj fields)) =
        .ok { resp :=
                node.proxy (Json.setKey (.obj fields) "action" (.str (pyLowerStrip a0))),
              store := s,
              forwarded :=
                some (Json.setKey (.obj fields) "action" (.str (pyLowerStrip a0))) }) := by
  have hred : PippinServer.gateway v node s (.json (.obj fields)) =
      dispatchAction v node s (pyLowerStrip a0)
        (Json.setKey (.obj fields) "action" (.str (pyLowerStrip a0))) := by
    simp [PippinServer.gateway, pyContains, pySubscript, ha]
  exact ⟨fun h => hred.trans (dispatchAction_unimplemented v node s _ _ h),
         fun h1 h2 => hred.trans (dispatchAction_proxy v node s _ _ h1 h2)⟩

/-- Witness for amended C2: `wallet_export` answers `not_implemented` with
nothing forwarded, while `block_count` is proxied to the node and the
node's response returned. -/
theorem gateway_routing_amended_witness :
    (PippinServer.gateway demoValidAddr demoNode demoStore
        (.json (Json.obj [("action", Json.str "wallet_export")])) =
      .ok { resp := errJson "not_implemented", store := demoStore, forwarded := none }) ∧
    (PippinServer.gateway demoValidAddr demoNode demoStore
        (.json (Json.obj [("action", Json.str "block_count")])) =
      .ok { resp := demoNode.proxy (Json.obj [("action", Json.str "block_count")]),
            store := demoStore,
            forwarded := some (Json.obj [("action", Json.str "block_count")]) }) :=
  ⟨(gateway_routing_amended demoValidAddr demoNode demoStore
      [("action", Json.str "wallet_export")] "wallet_export" rfl).1 (by decide),
   (gateway_routing_amended demoValidAddr demoNode demoStore
      [("action", Json.str "block_count")] "block_count" rfl).2 (by decide) (by decide)⟩

/-- Helper: a successful run of the block-building path of the pipeline
`send` returns a `{"block": hash}` response and appends exactly one row
(carrying the supplied `send_id`) and one published block. -/
theorem send_create_ok_shape (node : Node) (s : Store) (w : Wallet) (acct : Account)
    (amount : Int) (dest : String) (id : Option Json) (work : Option Json)
    (r : Json) (s' : Store)
    (h : WalletUtil.send_create node s w acct amount dest id work = .ok (r, s')) :
    ∃ hash block,
      r = blockJson hash ∧
      s' = { s with
              blocks := s.blocks ++
                [{ wallet_id := w.id, block_hash := hash, account := acct.address,
                   subtype := "send", send_id := id }]
              published := s.published ++ [(block, "send")] } := by
  unfold WalletUtil.send_create at h
  split at h
  · exact absurd h (by simp)
  · split at h
    · exact absurd h (by simp)
    · dsimp only at h
      split at h
      · exact absurd h (by simp)
      · split at h
        · exact absurd h (by simp)
        · cases h
          exact ⟨_, _, rfl, rfl⟩

/-- Helper: a successful pipeline `send` either replays the first recorded
row for the supplied id with the store untouched, or appends exactly one
row carrying that id after finding none. -/
theorem send_ok_cases (node : Node) (s : Store) (w : Wallet) (acct : Account)
    (amount : Int) (dest : String) (id : Option Json) (work : Option Json)
    (r : Json) (s' : Store)
    (h : WalletUtil.send node s w acct amount dest id work = .ok (r, s')) :
    (∃ i row, id = some i ∧ firstSendRow s w.id i = some row ∧
       r = blockJson row.block_hash ∧ s' = s) ∨
    ((∀ i, id = some i → firstSendRow s w.id i = none) ∧
     ∃ hash block,
       r = blockJson hash ∧
       s' = { s with
               blocks := s.blocks ++
                 [{ wallet_id := w.id, block_hash := hash, account := acct.address,
                    subtype := "send", send_id := id }]
               published := s.published ++ [(block, "send")] }) := by
  unfold WalletUtil.send at h
  split at h
  · rename_i i
    split at h
    · rename_i row hrow
      cases h
      exact .inl ⟨i, row, rfl, hrow, rfl, rfl⟩
    · rename_i hrow
      refine .inr ⟨?_, send_create_ok_shape _ _ _ _ _ _ _ _ _ _ h⟩
      intro i' hi'
      cases hi'
      exact hrow
  · refine .inr ⟨?_, send_create_ok_shape _ _ _ _ _ _ _ _ _ _ h⟩
    intro i' hi'
    cases hi'

/-- Helper: `rowMatches` unfolded to its two conjuncts. -/
theorem rowMatches_eq_true (wid : String) (i : Json) (b : BlockRow) :
    rowMatches wid i b = true ↔ (b.wallet_id = wid ∧ b.send_id = some i) := by
  simp [rowMatches]

/-- Claim C1: when a send request carries an id for which a block row
already exists on the wallet, the pipeline returns the recorded hash of
the first such row as `{"block": hash}` with the store unchanged - no
block is built, published or persisted, and nothing that could move the
balance happens; and every send, replayed or fresh, preserves the
invariant that at most one block row exists per `(wallet, send_id)`
pair. -/
theorem send_idempotent_per_send_id :
    (∀ (node : Node) (s : Store) (w : Wallet) (acct : Account) (amount : Int)
        (dest : String) (i : Json) (work : Option Json) (row : BlockRow),
        firstSendRow s w.id i = some row →
        WalletUtil.send node s w acct amount dest (some i) work =
          .ok (blockJson row.block_hash, s)) ∧
    (∀ (node : Node) (s : Store) (w : Wallet) (acct : Account) (amount : Int)
        (dest : String) (id : Option Json) (work : Option Json) (r : Json) (s' : Store),
        UniqueSendIds s →
        WalletUtil.send node s w acct amount dest id work = .ok (r, s') →
        UniqueSendIds s') := by
  constructor
  · intro node s w acct amount dest i work row hrow
    simp [WalletUtil.send, hrow]
  · intro node s w acct amount dest id work r s' hu h
    rcases send_ok_cases node s w acct amount dest id work r s' h with
      ⟨i, row, hid, hrow, hr, hs⟩ | ⟨hnone, hash, block, hr, hs⟩
    · rw [hs]; exact hu
    · rw [hs]
      intro wid i'
      rw [UniqueSendIds] at hu
      simp only [List.filter_append, List.length_append]
      by_cases hm : rowMatches wid i'
        { wallet_id := w.id, block_hash := hash, account := acct.address,
          subtype := "send", send_id := id } = true
      · obtain ⟨hwid, hsid⟩ := (rowMatches_eq_true _ _ _).1 hm
        dsimp only at hwid hsid
        subst hwid
        have hn := hnone i' hsid
        rw [firstSendRow, List.find?_eq_none] at hn
        have hfil : s.blocks.filter (rowMatches w.id i') = [] :=
          List.filter_eq_nil_iff.mpr hn
        rw [hfil]
        exact le_trans (Nat.add_le_add_left (List.length_filter_le _ _) _) (Nat.le_refl 1)
      · rw [List.filter_cons, if_neg hm, List.filter_nil]
        simpa using hu wid i'

/-- Witness for C1: replaying the recorded id `abc` returns the stored
hash `H1` with the store unchanged, and a fresh send with the new id `zzz`
preserves the at-most-one-row invariant. -/
theorem send_idempotent_per_send_id_witness :
    (WalletUtil.send demoNode demoStore demoWallet demoAccount 5 "nano_dest"
        (some (Json.str "abc")) none = .ok (blockJson "H1", demoStore)) ∧
    UniqueSendIds demoStoreAfterSend :=
  ⟨send_idempotent_per_send_id.1 demoNode demoStore demoWallet demoAccount 5 "nano_dest"
      (Json.str "abc") none demoRow rfl,
   send_idempotent_per_send_id.2 demoNode demoStore demoWallet demoAccount 5 "nano_dest"
      (some (Json.str "zzz")) none (blockJson "H2") demoStoreAfterSend
      (fun _ _ => le_trans (List.length_filter_le _ _) (Nat.le_refl 1)) rfl⟩

/-- Counterexample to claim C9 as stated: a send request whose addresses
pass validation and whose wallet and source account exist, but whose
amount is the non-numeric string `abc`, raises `ValueError` out of the
handler from `int(request_json['amount'])` - no `except` clause covers it,
so no taxonomy string is returned.  The address validator stands in for
the absent `util/validators.py`; any validator accepting the two addresses
produces the same run. -/
theorem send_nonnumeric_amount_valueerror :
    PippinServer.send demoValidAddr demoNode demoStore
        (Json.obj [("wallet", Json.str "w1"), ("source", Json.str "nano_src"),
                   ("destination", Json.str "nano_dest"), ("amount", Json.str "abc")]) =
      .error PyExc.valueError := rfl

/-- Claim C9 as amended: a send request carrying the four fields with
validated source and destination and an amount that `int()` converts is
answered without an exception, either with a `{"block": hash}` success or
with one of the section 7 error strings; an amount on which `int()` fails
raises an uncaught `ValueError` instead (transport-level 500). -/
theorem send_response_taxonomy_amended (v : String → Bool) (node : Node) (s : Store)
    (req : Json) (wv sv dv av : Json) (amount : Int)
    (hwv : req.get? "wallet" = some wv) (hsv : req.get? "source" = some sv)
    (hdv : req.get? "destination" = some dv) (hav : req.get? "amount" = some av)
    (hv1 : validAddrJson v sv = true) (hv2 : validAddrJson v dv = true)
    (hamt : pyInt av = .ok amount) :
    ∃ resp s', PippinServer.send v node s req = .ok (resp, s') ∧
      ((∃ hash, resp = blockJson hash) ∨
       resp ∈ [errJson "wallet not found", errJson "wallet locked",
               errJson "Account not found", errJson "Block not found",
               errJson "Failed to generate work", errJson "RPC Process failed",
               errJson "insufficient balance"]) := by
  unfold PippinServer.send
  simp only [Json.get!, hwv, hsv, hdv, hav, Option.getD_some, Option.isNone_some,
    Bool.or_self, Bool.or_false, Bool.false_or, hv1, hv2, hamt, Bool.not_true,
    Bool.false_eq_true, if_false]
  cases hg : Wallet.get_wallet s wv with
  | notFound =>
    exact ⟨errJson "wallet not found", s, by simp, by simp⟩
  | locked w =>
    exact ⟨errJson "wallet locked", s, by simp, by simp⟩
  | found w =>
    cases ha : w.get_account (jsonStrD sv) with
    | none =>
      exact ⟨errJson "Account not found", s, by simp [ha], by simp⟩
    | some acct =>
      cases hsend : WalletUtil.send node s w acct amount (jsonStrD dv)
          (req.get? "id") (req.get? "work") with
      | error e =>
        cases e
        · exact ⟨errJson "Account not found", s, by simp [ha, hsend], by simp⟩
        · exact ⟨errJson "Block not found", s, by simp [ha, hsend], by simp⟩
        · exact ⟨errJson "Failed to generate work", s, by simp [ha, hsend], by simp⟩
        · exact ⟨errJson "RPC Process failed", s, by simp [ha, hsend], by simp⟩
        · exact ⟨errJson "insufficient balance", s, by simp [ha, hsend], by simp⟩
      | ok p =>
        obtain ⟨r, s2⟩ := p
        have hblk : ∃ hash, r = blockJson hash := by
          rcases send_ok_cases node s w acct amount (jsonStrD dv) (req.get? "id")
              (req.get? "work") r s2 hsend with
            ⟨i, row, -, -, hr, -⟩ | ⟨-, hash, -, hr, -⟩
          · exact ⟨row.block_hash, hr⟩
          · exact ⟨hash, hr⟩
        obtain ⟨hash, hr⟩ := hblk
        subst hr
        refine ⟨blockJson hash, s2, ?_, .inl ⟨hash, rfl⟩⟩
        simp [ha, hsend, blockJson]

/-- Witness for amended C9: the well-formed demo send request (amount
`"7"`) is answered without an exception by a taxonomy response or a block
hash. -/
theorem send_response_taxonomy_amended_witness :
    ∃ resp s',
      PippinServer.send demoValidAddr demoNode demoStore demoSendReq = .ok (resp, s') ∧
      ((∃ hash, resp = blockJson hash) ∨
       resp ∈ [errJson "wallet not found", errJson "wallet locked",
               errJson "Account not found", errJson "Block not found",
               errJson "Failed to generate work", errJson "RPC Process failed",
               errJson "insufficient balance"]) :=
  send_response_taxonomy_amended demoValidAddr demoNode demoStore demoSendReq
    (Json.str "w1") (Json.str "nano_src") (Json.str "nano_dest") (Json.str "7") 7
    rfl rfl rfl rfl rfl rfl rfl

end Pippin
